import Mathlib

/-!
Shallow embedding of `setup.py` from the intel-extension-for-pytorch build
orchestration script.  The process environment is modelled as a partial map
from variable names to values; external effects (subprocess invocations,
`os.chdir`, `sys.exit`) are made explicit as data returned by the embedded
functions.  Every definition mirrors one function or code block of the
source; environment-dependent primitives (`os.path.abspath`, the outcome of
`git rev-parse`, exit codes of the generator scripts, `find_executable`
results) are parameters.
-/

/-- Process environment: a partial map from variable name to value,
as read by `os.getenv`. -/
abbrev EnvMap := String → Option String

/-- Character-list prefix test (model of an anchored regex / string-prefix
match: `isPre pat xs` holds when `pat` is an initial segment of `xs`). -/
def isPre : List Char → List Char → Bool
  | [], _ => true
  | _ :: _, [] => false
  | a :: as, b :: bs => a == b && isPre as bs

/-- `startsWithStr l m` : the string `l` begins with the string `m`. -/
def startsWithStr (l m : String) : Bool := isPre m.toList l.toList

/-- Model of POSIX `os.path.join a b` for a non-absolute second component
free of separators (the only shape this script joins): an absolute `b`
wins, an empty `a` yields `b`, a trailing slash is not doubled. -/
def osPathJoin (a b : String) : String :=
  if startsWithStr b "/" then b
  else if a = "" then b
  else if isPre ['/'] a.toList.reverse then a ++ b
  else a ++ "/" ++ b

/-- Model of `os.path.abspath` relative to a current working directory
`cwd`, for paths that contain no `.` or `..` components (the only paths
this development evaluates it on). -/
def abspath (cwd p : String) : String :=
  if startsWithStr p "/" then p
  else if p = "" then cwd
  else osPathJoin cwd p

/-- Python `str.upper()` for the ASCII strings this script compares:
uppercase each character.  (Defined over the character list so that it
evaluates by kernel reduction.) -/
def pyUpper (s : String) : String := String.mk (s.toList.map Char.toUpper)

/-- Python `str.strip()`: drop leading and trailing whitespace. -/
def pyStrip (s : String) : String :=
  String.mk (((s.toList.dropWhile Char.isWhitespace).reverse.dropWhile Char.isWhitespace).reverse)

/-- Python slicing `s[:n]`: the first `n` characters (all of `s` when it
is shorter). -/
def pyTake (s : String) (n : Nat) : String := String.mk (s.toList.take n)

/-- Split a character list at every occurrence of `sep` (model of
Python `str.split(sep)` for a one-character separator). -/
def splitOnChar (sep : Char) : List Char -> List (List Char)
  | [] => [[]]
  | c :: cs =>
    match splitOnChar sep cs with
    | [] => if c == sep then [[], []] else [[c]]
    | h :: t => if c == sep then [] :: h :: t else (c :: h) :: t

/-- Python `s.split('\n')`. -/
def pySplitLines (s : String) : List String :=
  (splitOnChar '\n' s.toList).map String.mk

/-- Embedding of `_check_env_flag(name, default='')` (setup.py line 36):
`os.getenv(name, default).upper() in ['ON', '1', 'YES', 'TRUE', 'Y']`. -/
def _check_env_flag (env : EnvMap) (name : String) (default : String) : Bool :=
  (["ON", "1", "YES", "TRUE", "Y"]).contains (pyUpper ((env name).getD default))

/-- Result of `_get_env_backend`: either a backend string is returned or
the process exits via `sys.exit`. -/
inductive BackendResult where
  | ok (backend : String)
  | exit (code : Nat)
deriving DecidableEq, Repr

/-- Embedding of `_get_env_backend()` (setup.py lines 40-51). -/
def _get_env_backend (env : EnvMap) : BackendResult :=
  let env_backend_options := ["cpu", "gpu"]
  match env "IPEX_BACKEND" with
  | none => .ok "cpu"
  | some env_backend_val =>
    if pyStrip env_backend_val = "" then .ok "cpu"
    else if !(env_backend_options.contains env_backend_val) then .exit 1
    else .ok env_backend_val

/-- A raised Python exception (e.g. `subprocess.CalledProcessError`). -/
structure PyErr where
  msg : String
deriving DecidableEq, Repr

/-- Embedding of `get_git_head_sha(base_dir)` (setup.py lines 54-64).
`ipexGitOut` / `parentGitOut` are the outcomes of the two
`subprocess.check_output(['git', 'rev-parse', 'HEAD'], ...)` calls
(`.error` when `check_output` raises); `hasParentGitDir` is the result of
the `os.path.isdir(base_dir/../.git)` test.  No exception is caught here:
a failing query propagates. -/
def get_git_head_sha (ipexGitOut : Except PyErr String) (hasParentGitDir : Bool)
    (parentGitOut : Except PyErr String) : Except PyErr (String × String) :=
  match ipexGitOut with
  | .error e => .error e
  | .ok raw =>
    let ipex_git_sha := pyStrip raw
    if hasParentGitDir then
      match parentGitOut with
      | .error e => .error e
      | .ok raw2 => .ok (ipex_git_sha, pyStrip raw2)
    else
      .ok (ipex_git_sha, "")

/-- Embedding of `get_build_version(ipex_git_sha)` (setup.py lines 67-74).
The `try: version += '+' + ipex_git_sha[:7] except Exception: pass` block
can only fail when the slicing itself raises (a non-string value);
`none` models such a value, and the `except: pass` branch then leaves
`version` untouched. -/
def get_build_version (env : EnvMap) (ipex_git_sha : Option String) : String :=
  let version := (env "TORCH_IPEX_VERSION").getD "1.0.0"
  if _check_env_flag env "VERSIONED_IPEX_BUILD" "0" then
    match ipex_git_sha with
    | some sha => version ++ "+" ++ pyTake sha 7
    | none => version
  else
    version

/-- Embedding of the module-level version resolution
`ipex_git_sha, torch_git_sha = get_git_head_sha(base_dir);
version = get_build_version(ipex_git_sha)` (setup.py lines 221-222):
an exception raised by `get_git_head_sha` escapes uncaught. -/
def scriptVersionResolution (env : EnvMap) (ipexGitOut : Except PyErr String)
    (hasParentGitDir : Bool) (parentGitOut : Except PyErr String) : Except PyErr String :=
  match get_git_head_sha ipexGitOut hasParentGitDir parentGitOut with
  | .error e => .error e
  | .ok shas => .ok (get_build_version env (some shas.1))

/-- Module-level constants of setup.py that depend on the host
(`pytorch_install_dir`, `base_dir`, `python_include_dir`, `sys.executable`,
`multiprocessing.cpu_count()`), bundled as parameters. -/
structure Globals where
  pytorch_install_dir : String
  base_dir : String
  python_include_dir : String
  sys_executable : String
  cpu_count : Nat
deriving DecidableEq, Repr

/-- Observable effects of `generate_ipex_cpu_aten_code`: the subprocess
invocations it performed (cwd paired with argv), the working directory
after it returns or exits, and the `sys.exit` code if any. -/
structure GenEffects where
  calls : List (String × List String)
  finalCwd : String
  exitCode : Option Nat
deriving DecidableEq, Repr

/-- Embedding of `generate_ipex_cpu_aten_code(base_dir)` (setup.py lines
96-115).  `cwd0` is the caller's working directory (`os.path.abspath(
os.path.curdir)` at entry, assumed absolute); `sparseExit` / `denseExit`
are the exit statuses of the two generator scripts.  `os.chdir` into the
scripts directory, the exit-status checks and the restoring `os.chdir(
cur_dir)` on every path are made explicit. -/
def generate_ipex_cpu_aten_code (G : Globals) (cwd0 : String)
    (sparseExit denseExit : Int) : GenEffects :=
  let cur_dir := cwd0
  let gen_dir := osPathJoin (osPathJoin G.base_dir "scripts") "cpu"
  let cpu_ops_path := osPathJoin (osPathJoin (osPathJoin G.base_dir "torch_ipex") "csrc") "cpu"
  let sparse_dec_file_path := osPathJoin gen_dir "pytorch_headers"
  let sparse_cmd := ["./gen-sparse-cpu-ops.sh", cpu_ops_path, G.pytorch_install_dir, sparse_dec_file_path]
  if sparseExit ≠ 0 then
    { calls := [(gen_dir, sparse_cmd)], finalCwd := cur_dir, exitCode := some 1 }
  else
    let dense_cmd := ["./gen-dense-cpu-ops.sh", cpu_ops_path, G.pytorch_install_dir]
    if denseExit ≠ 0 then
      { calls := [(gen_dir, sparse_cmd), (gen_dir, dense_cmd)], finalCwd := cur_dir, exitCode := some 1 }
    else
      { calls := [(gen_dir, sparse_cmd), (gen_dir, dense_cmd)], finalCwd := cur_dir, exitCode := none }

/-- The Extension Descriptor (class `IPEXExt`, setup.py lines 118-122). -/
structure IPEXExt where
  name : String
  sources : List String
  project_dir : String
  build_dir : String
deriving DecidableEq, Repr

/-- Embedding of `IPEXExt.__init__(self, name, project_dir=...)` (setup.py
lines 119-122): `sources=[]`, `project_dir = os.path.abspath(project_dir)`
but `build_dir = os.path.join(project_dir, 'build')` on the RAW argument.
`cwd` parameterises `os.path.abspath`. -/
def IPEXExt.init (name : String) (project_dir : String) (cwd : String) : IPEXExt :=
  { name := name
    sources := []
    project_dir := abspath cwd project_dir
    build_dir := osPathJoin project_dir "build" }

/-- Observable effects of one `IPEXBuild.build_extension(ext)` call: the
final `ext_dir` (used for both the install prefix and library output
directory), the cmake argument list, the configure and compile
invocations with the environments passed via `env=`, the state of
`os.environ` afterwards, and the (untouched) extension descriptor. -/
structure BuildEffects where
  ext : IPEXExt
  ext_dir : String
  build_type : String
  cmake_args : List String
  configure_cmd : List String
  configure_cwd : String
  configure_env : EnvMap
  build_cmd : List String
  build_cwd : String
  build_env : EnvMap
  os_environ_after : EnvMap

/-- Embedding of `IPEXBuild.build_extension(self, ext)` (setup.py lines
171-218).  `ext_dir0` is `os.path.abspath(os.path.dirname(
self.get_ext_fullpath(ext.name)))` (environment-dependent, a parameter);
`cmakeExe` is the resolved cmake binary.  Python's
`ext.name is 'torch_ipex'` (line 183) is an identity test on strings;
it is modelled as string equality, which identity implies — every theorem
below only uses inputs on which the equality already fails, where the two
semantics agree.  Note `env = os.environ.copy()` (line 207) is taken
BEFORE `os.environ['CXX'] = 'compute++'` (line 209), and that same copy
is what both `check_call`s receive via `env=env`. -/
def build_extension (G : Globals) (env : EnvMap) (cmakeExe : String)
    (ext : IPEXExt) (ext_dir0 : String) : BuildEffects :=
  let ext_dir := ext_dir0
  let build_type := if _check_env_flag env "DEBUG" "" then "Debug" else "Release"
  let ext_dir :=
    if ext.name == "torch_ipex" && _check_env_flag env "USE_SYCL" "" then
      ext_dir ++ "/torch_ipex"
    else ext_dir
  let cmake_args :=
    ["-DCMAKE_BUILD_TYPE=" ++ build_type,
     "-DPYTORCH_INSTALL_DIR=" ++ G.pytorch_install_dir,
     "-DPYTHON_EXECUTABLE=" ++ G.sys_executable,
     "-DCMAKE_INSTALL_PREFIX=" ++ ext_dir,
     "-DCMAKE_LIBRARY_OUTPUT_DIRECTORY=" ++ ext_dir,
     "-DPYTHON_INCLUDE_DIR=" ++ G.python_include_dir]
  let cmake_args := cmake_args ++ (if _check_env_flag env "USE_SYCL" "" then ["-DUSE_SYCL=1"] else [])
  let cmake_args := cmake_args ++ (if _check_env_flag env "DPCPP_ENABLE_PROFILING" "" then ["-DDPCPP_ENABLE_PROFILING=1"] else [])
  let use_ninja := _check_env_flag env "USE_NINJA" ""
  let cmake_args := cmake_args ++ (if use_ninja then ["-GNinja"] else [])
  let build_args := ["-j", toString G.cpu_count]
  let envCopy := env
  let os_environ_after :=
    if _check_env_flag env "USE_SYCL" "" then
      fun k => if k = "CXX" then some "compute++" else env k
    else env
  { ext := ext
    ext_dir := ext_dir
    build_type := build_type
    cmake_args := cmake_args
    configure_cmd := cmakeExe :: ext.project_dir :: cmake_args
    configure_cwd := ext.build_dir
    configure_env := envCopy
    build_cmd := (if use_ninja then ["ninja"] else ["make"]) ++ build_args
    build_cwd := ext.build_dir
    build_env := envCopy
    os_environ_after := os_environ_after }

/-- Outcome of `IPEXBuild.run` (setup.py lines 152-169): the generation
step may `sys.exit`, cmake resolution may fail (RuntimeError), Windows is
rejected (RuntimeError), otherwise every extension is built. -/
inductive RunResult where
  | fatalGen (g : GenEffects)
  | noCmake
  | windowsUnsupported
  | done (g : GenEffects) (builds : List BuildEffects)

/-- Whether `IPEXBuild.run` reached and completed the per-extension
build loop. -/
def RunResult.isDone : RunResult → Bool
  | .done _ _ => true
  | _ => false

/-- The code-generation subprocess calls that were performed during
`IPEXBuild.run`. -/
def RunResult.genCalls : RunResult → List (String × List String)
  | .fatalGen g => g.calls
  | .done g _ => g.calls
  | _ => []

/-- Embedding of `IPEXBuild.run(self)` (setup.py lines 152-169): generate
code first, then resolve cmake (`find_executable('cmake3') or
find_executable('cmake')`), reject Windows, then build every extension.
`exts` pairs each descriptor with its environment-dependent `ext_dir0`.
Note that nothing here consults `IPEX_BACKEND`: `_get_env_backend` has no
caller anywhere in the script. -/
def IPEXBuild_run (G : Globals) (env : EnvMap) (cwd0 : String)
    (sparseExit denseExit : Int) (cmake3 cmakeExe : Option String)
    (isWindows : Bool) (exts : List (IPEXExt × String)) : RunResult :=
  let g := generate_ipex_cpu_aten_code G cwd0 sparseExit denseExit
  match g.exitCode with
  | some _ => .fatalGen g
  | none =>
    match cmake3.orElse (fun _ => cmakeExe) with
    | none => .noCmake
    | some cm =>
      if isWindows then .windowsUnsupported
      else .done g (exts.map (fun pr => build_extension G env cm pr.1 pr.2))

/-- The line-level test performed by the regex
`re.compile(r'^#( BEGIN NOT-CLEAN-FILES )?')` in `IPEXClean.run`
(setup.py line 132): `pat.match(l)` succeeds iff `l` begins with `#`. -/
def hashLine (l : String) : Bool := startsWithStr l "#"

/-- `match.group(1)` of the same regex is non-`None` iff the line begins
with `'# BEGIN NOT-CLEAN-FILES '` — trailing space included. -/
def markerLine (l : String) : Bool := startsWithStr l "# BEGIN NOT-CLEAN-FILES "

/-- Embedding of the `for wildcard in filter(None, ignores.split('\n'))`
loop of `IPEXClean.run` (setup.py lines 133-145), applied to the
already-filtered line list: returns, in order, the wildcards passed to
`glob.glob` for deletion.  A `#` line with the marker group breaks; any
other `#` line is skipped; every remaining line is a deletion pattern. -/
def cleanLoop : List String → List String
  | [] => []
  | l :: ls =>
    if hashLine l then
      if markerLine l then [] else cleanLoop ls
    else
      l :: cleanLoop ls

/-- Embedding of `IPEXClean.run` pattern collection from the `.gitignore`
text (setup.py lines 130-145): `ignores.split('\n')`, `filter(None, ...)`
(drops empty strings), then the loop above. -/
def cleanPatterns (ignores : String) : List String :=
  cleanLoop ((pySplitLines ignores).filter (fun l => l != ""))

/-- The filesystem entries `IPEXClean.run` deletes, given the glob
expansion `g` (mapping a wildcard to the matching entries) and the
filtered ignore lines: every match of every collected pattern is removed
(`os.remove` / `shutil.rmtree`, setup.py lines 141-145). -/
def deletedFiles (g : String → List String) (lines : List String) : List String :=
  (cleanLoop lines).flatMap g

/-- Concrete host constants used by closed theorems below. -/
def G0 : Globals :=
  { pytorch_install_dir := "/site-packages/torch"
    base_dir := "/proj"
    python_include_dir := "/usr/include/python3.7m"
    sys_executable := "/usr/bin/python"
    cpu_count := 8 }

/-- Environment with no variables set. -/
def envEmpty : EnvMap := fun _ => none

/-- Environment with only `IPEX_BACKEND=gpu`. -/
def envGpu : EnvMap := fun k => if k = "IPEX_BACKEND" then some "gpu" else none

/-- Environment with only `IPEX_BACKEND=xpu` (an invalid backend value). -/
def envXpu : EnvMap := fun k => if k = "IPEX_BACKEND" then some "xpu" else none

/-- Environment with only `USE_SYCL=1`. -/
def envSycl : EnvMap := fun k => if k = "USE_SYCL" then some "1" else none

/-- Environment with only `VERSIONED_IPEX_BUILD=1`. -/
def envVersioned : EnvMap := fun k => if k = "VERSIONED_IPEX_BUILD" then some "1" else none

/-- Environment with only `FLAG=y`. -/
def envY : EnvMap := fun k => if k = "FLAG" then some "y" else none

/-- The primary native module as registered at setup.py line 259:
`IPEXExt('_torch_ipex')`, built from the project dir `/proj`. -/
def extPrimary : IPEXExt := IPEXExt.init "_torch_ipex" "/proj" "/cwd"

/-- A failed `git rev-parse HEAD` invocation. -/
def gitFail : PyErr := { msg := "CalledProcessError: git rev-parse HEAD returned 128" }

/-- A 40-character revision hash. -/
def sha40 : String := "0123456789012345678901234567890123456789"

/-- Case-insensitive match between a value and a canonical spelling,
as the specification uses the phrase. -/
def ciMatches (v s : String) : Prop := pyUpper v = pyUpper s

instance (v s : String) : Decidable (ciMatches v s) :=
  inferInstanceAs (Decidable (pyUpper v = pyUpper s))

/-- A glob expansion used by closed instances of the clean-hook theorems:
`*.so` matches two entries, nothing else matches anything. -/
def glob0 : String → List String := fun p => if p = "*.so" then ["a.so", "b.so"] else []

theorem isPre_head {a : Char} {as xs : List Char} (h : isPre (a :: as) xs = true) :
    isPre [a] xs = true := by
  cases xs with
  | nil => simp [isPre] at h
  | cons b bs =>
    simp [isPre] at h ⊢
    exact h.1

theorem hashLine_of_markerLine {l : String} (h : markerLine l = true) : hashLine l = true := by
  unfold markerLine startsWithStr at h
  unfold hashLine startsWithStr
  have h1 : "# BEGIN NOT-CLEAN-FILES ".toList = '#' :: " BEGIN NOT-CLEAN-FILES ".toList := rfl
  have h2 : "#".toList = ['#'] := rfl
  rw [h1] at h
  rw [h2]
  exact isPre_head h

theorem cleanLoop_mem : ∀ (lines : List String) (p : String),
    p ∈ cleanLoop lines → hashLine p = false ∧ p ∈ lines := by
  intro lines
  induction lines with
  | nil => intro p hp; simp [cleanLoop] at hp
  | cons l ls ih =>
    intro p hp
    by_cases h1 : hashLine l
    · by_cases h2 : markerLine l
      · simp [cleanLoop, h1, h2] at hp
      · simp only [cleanLoop, h1, h2, if_true, if_false, Bool.false_eq_true] at hp
        obtain ⟨hf, hm⟩ := ih p (by simpa using hp)
        exact ⟨hf, List.mem_cons_of_mem _ hm⟩
    · simp only [cleanLoop, h1, Bool.false_eq_true, if_false, List.mem_cons] at hp
      rcases hp with rfl | hp
      · exact ⟨by simpa using h1, List.mem_cons_self _ _⟩
      · obtain ⟨hf, hm⟩ := ih p hp
        exact ⟨hf, List.mem_cons_of_mem _ hm⟩

theorem cleanLoop_stop_marker {m : String} (hm : markerLine m = true) (rest : List String) :
    cleanLoop (m :: rest) = [] := by
  simp [cleanLoop, hashLine_of_markerLine hm, hm]

theorem cleanLoop_append_marker {m : String} (hm : markerLine m = true) :
    ∀ (before after : List String) (p : String),
      p ∈ cleanLoop (before ++ m :: after) → p ∈ before := by
  intro before
  induction before with
  | nil =>
    intro after p hp
    rw [List.nil_append, cleanLoop_stop_marker hm after] at hp
    simp at hp
  | cons l ls ih =>
    intro after p hp
    rw [List.cons_append] at hp
    by_cases h1 : hashLine l
    · by_cases h2 : markerLine l
      · simp [cleanLoop, h1, h2] at hp
      · simp only [cleanLoop, h1, h2, if_true, if_false, Bool.false_eq_true] at hp
        exact List.mem_cons_of_mem _ (ih after p (by simpa using hp))
    · simp only [cleanLoop, h1, Bool.false_eq_true, if_false, List.mem_cons] at hp
      rcases hp with rfl | hp
      · exact List.mem_cons_self _ _
      · exact List.mem_cons_of_mem _ (ih after p hp)

theorem cleanLoop_of_no_hash : ∀ (lines : List String),
    (∀ p ∈ lines, hashLine p = false) → cleanLoop lines = lines := by
  intro lines
  induction lines with
  | nil => intro _; rfl
  | cons l ls ih =>
    intro h
    have hl : hashLine l = false := h l (List.mem_cons_self _ _)
    simp only [cleanLoop, hl, Bool.false_eq_true, if_false, List.cons.injEq, true_and]
    exact ih (fun p hp => h p (List.mem_cons_of_mem _ hp))

theorem cleanLoop_no_hash_append {m : String} (hm : markerLine m = true) :
    ∀ (before after : List String), (∀ p ∈ before, hashLine p = false) →
      cleanLoop (before ++ m :: after) = before := by
  intro before
  induction before with
  | nil => intro after _; rw [List.nil_append]; exact cleanLoop_stop_marker hm after
  | cons l ls ih =>
    intro after h
    have hl : hashLine l = false := h l (List.mem_cons_self _ _)
    rw [List.cons_append]
    simp only [cleanLoop, hl, Bool.false_eq_true, if_false, List.cons.injEq, true_and]
    exact ih after (fun p hp => h p (List.mem_cons_of_mem _ hp))

/-- C1: `_get_env_backend` does resolve an unset `IPEX_BACKEND` to "cpu",
"gpu" to "gpu", and would `sys.exit(1)` on any other value — but the
script never calls it: with `IPEX_BACKEND=xpu` (an invalid value) the
build command still runs both code generators and completes the build
loop instead of terminating first. -/
theorem c1_backend_check_dead_code :
    _get_env_backend envEmpty = .ok "cpu" ∧
      _get_env_backend envGpu = .ok "gpu" ∧
      _get_env_backend envXpu = .exit 1 ∧
      RunResult.isDone (IPEXBuild_run G0 envXpu "/cwd" 0 0 none (some "/usr/bin/cmake") false
        [(extPrimary, "/out")]) = true ∧
      (IPEXBuild_run G0 envXpu "/cwd" 0 0 none (some "/usr/bin/cmake") false
        [(extPrimary, "/out")]).genCalls.length = 2 :=
  ⟨by decide, by decide, by decide, rfl, rfl⟩

/-- C2 counterexample: with `VERSIONED_IPEX_BUILD=1` and the git revision
query raising, the module-level version resolution propagates the
exception instead of yielding the unsuffixed base version "1.0.0". -/
theorem c2_counterexample :
    scriptVersionResolution envVersioned (Except.error gitFail) false (Except.ok "") =
        Except.error gitFail ∧
      scriptVersionResolution envVersioned (Except.error gitFail) false (Except.ok "") ≠
        Except.ok "1.0.0" :=
  ⟨rfl, fun h => Except.noConfusion h⟩

/-- C2 amended: the `try/except` inside `get_build_version` swallows only
a failure of the suffix-composition step itself (modelled by a `none`
hash value), yielding the unsuffixed base version; a failure of the git
revision query raises inside `get_git_head_sha`, before version
resolution, and escapes uncaught. -/
theorem c2_amended_suffix_best_effort (env : EnvMap) (e : PyErr) (hasP : Bool)
    (pg : Except PyErr String) :
    get_build_version env none = (env "TORCH_IPEX_VERSION").getD "1.0.0" ∧
      scriptVersionResolution env (Except.error e) hasP pg = Except.error e := by
  constructor
  · by_cases h : _check_env_flag env "VERSIONED_IPEX_BUILD" "0" <;>
      simp [get_build_version, h]
  · rfl

/-- C3: with `USE_SYCL` truthy, `build_extension` never appends the
`/torch_ipex` subdirectory for the actually registered primary module,
because its name `'_torch_ipex'` is compared against the literal
`'torch_ipex'` (setup.py line 183) and the two are never equal — the
install prefix and library output directory stay exactly the incoming
`ext_dir`. -/
theorem c3_primary_module_never_relocated (G : Globals) (env : EnvMap) (cmakeExe : String)
    (ext : IPEXExt) (d : String) (hname : ext.name = "_torch_ipex")
    (hsycl : _check_env_flag env "USE_SYCL" "" = true) :
    (build_extension G env cmakeExe ext d).ext_dir = d := by
  have hne : (ext.name == "torch_ipex") = false := by rw [hname]; decide
  simp [build_extension, hne]

/-- C3 witness: concrete SYCL-enabled build of the registered
`_torch_ipex` extension leaves the install directory `/out` unchanged. -/
theorem c3_witness :
    extPrimary.name = "_torch_ipex" ∧
      _check_env_flag envSycl "USE_SYCL" "" = true ∧
      (build_extension G0 envSycl "/usr/bin/cmake" extPrimary "/out").ext_dir = "/out" :=
  ⟨rfl, by decide,
   c3_primary_module_never_relocated G0 envSycl "/usr/bin/cmake" extPrimary "/out" rfl (by decide)⟩

/-- C4: with `USE_SYCL` truthy, the environment dict passed to the
configure invocation is the copy taken BEFORE `os.environ['CXX']` is
mutated, so its `CXX` entry equals the original value (the mutation only
lands in `os.environ` itself). -/
theorem c4_cxx_not_passed_to_configure (G : Globals) (env : EnvMap) (cmakeExe : String)
    (ext : IPEXExt) (d : String) (hsycl : _check_env_flag env "USE_SYCL" "" = true) :
    (build_extension G env cmakeExe ext d).configure_env "CXX" = env "CXX" ∧
      (build_extension G env cmakeExe ext d).os_environ_after "CXX" = some "compute++" := by
  constructor
  · rfl
  · simp [build_extension, hsycl]

/-- C4 witness: with `USE_SYCL=1` and `CXX` unset, the configure call's
environment still has no `CXX`, while `os.environ` ends up mutated. -/
theorem c4_witness :
    _check_env_flag envSycl "USE_SYCL" "" = true ∧
      envSycl "CXX" = none ∧
      (build_extension G0 envSycl "/usr/bin/cmake" extPrimary "/out").configure_env "CXX" =
        envSycl "CXX" ∧
      (build_extension G0 envSycl "/usr/bin/cmake" extPrimary "/out").os_environ_after "CXX" =
        some "compute++" :=
  ⟨by decide, rfl,
   (c4_cxx_not_passed_to_configure G0 envSycl "/usr/bin/cmake" extPrimary "/out" (by decide)).1,
   (c4_cxx_not_passed_to_configure G0 envSycl "/usr/bin/cmake" extPrimary "/out" (by decide)).2⟩

/-- C5 counterexample: the value "y" resolves the flag to true although
it does not case-insensitively match any of {"on","1","yes","true"} —
the source list also contains 'Y'. -/
theorem c5_counterexample :
    _check_env_flag envY "FLAG" "" = true ∧
      ¬ ∃ s ∈ (["on", "1", "yes", "true"] : List String), ciMatches "y" s :=
  ⟨by decide, by decide⟩

/-- C5 amended: a boolean-flag environment variable resolves to true
exactly when its value case-insensitively matches one of
{"on","1","yes","true","y"}; every other value, the empty string and
unset included, resolves to false. -/
theorem c5_flag_resolution (env : EnvMap) (name default : String) :
    _check_env_flag env name default = true ↔
      ∃ s ∈ (["on", "1", "yes", "true", "y"] : List String),
        ciMatches ((env name).getD default) s := by
  unfold _check_env_flag ciMatches
  constructor
  · intro h
    have hm : pyUpper ((env name).getD default) ∈
        (["ON", "1", "YES", "TRUE", "Y"] : List String) := by
      simpa using h
    simp only [List.mem_cons, List.not_mem_nil, or_false] at hm
    rcases hm with h1 | h1 | h1 | h1 | h1
    · exact ⟨"on", by simp, by rw [h1]; decide⟩
    · exact ⟨"1", by simp, by rw [h1]; decide⟩
    · exact ⟨"yes", by simp, by rw [h1]; decide⟩
    · exact ⟨"true", by simp, by rw [h1]; decide⟩
    · exact ⟨"y", by simp, by rw [h1]; decide⟩
  · rintro ⟨s, hs, hv⟩
    simp only [List.mem_cons, List.not_mem_nil, or_false] at hs
    have hmem : pyUpper ((env name).getD default) ∈
        (["ON", "1", "YES", "TRUE", "Y"] : List String) := by
      rcases hs with rfl | rfl | rfl | rfl | rfl <;> rw [hv] <;> decide
    simpa using hmem

/-- C6: when the sparse generator exits non-zero, the dense generator is
never invoked, the working directory is restored to the pre-invocation
value, and the function terminates the process via `sys.exit(1)`. -/
theorem c6_sparse_failure_aborts (G : Globals) (cwd0 : String) (sparseExit denseExit : Int)
    (hs : sparseExit ≠ 0) :
    (∀ c ∈ (generate_ipex_cpu_aten_code G cwd0 sparseExit denseExit).calls,
        c.2.head? ≠ some "./gen-dense-cpu-ops.sh") ∧
      (generate_ipex_cpu_aten_code G cwd0 sparseExit denseExit).finalCwd = cwd0 ∧
      (generate_ipex_cpu_aten_code G cwd0 sparseExit denseExit).exitCode = some 1 := by
  simp [generate_ipex_cpu_aten_code, hs]

/-- C6 witness: sparse generator exiting 1 on a concrete host. -/
theorem c6_witness :
    (∀ c ∈ (generate_ipex_cpu_aten_code G0 "/cwd" 1 0).calls,
        c.2.head? ≠ some "./gen-dense-cpu-ops.sh") ∧
      (generate_ipex_cpu_aten_code G0 "/cwd" 1 0).finalCwd = "/cwd" ∧
      (generate_ipex_cpu_aten_code G0 "/cwd" 1 0).exitCode = some 1 :=
  c6_sparse_failure_aborts G0 "/cwd" 1 0 (by decide)

/-- C7: for an ignore-list whose (filtered) lines split as
`before ++ marker :: after` around a recognised marker line, every
deleted filesystem entry matches a pattern occurring before the marker;
and when no line before the marker is a comment, the deletions are
exactly those of the before-section alone, so nothing after the marker is
ever deleted. -/
theorem c7_marker_confines_deletions (g : String → List String)
    (before after : List String) (m : String) (hm : markerLine m = true) :
    (∀ f ∈ deletedFiles g (before ++ m :: after), ∃ p ∈ before, f ∈ g p) ∧
      ((∀ p ∈ before, hashLine p = false) →
        deletedFiles g (before ++ m :: after) = deletedFiles g before) := by
  constructor
  · intro f hf
    rw [deletedFiles, List.mem_flatMap] at hf
    obtain ⟨p, hp, hfp⟩ := hf
    exact ⟨p, cleanLoop_append_marker hm before after p hp, hfp⟩
  · intro hb
    rw [deletedFiles, deletedFiles, cleanLoop_no_hash_append hm before after hb,
      cleanLoop_of_no_hash before hb]

/-- C7 witness: `*.so` before the marker is deleted (both matches), the
`keep.txt` pattern after the marker is untouched. -/
theorem c7_witness :
    markerLine "# BEGIN NOT-CLEAN-FILES deliberately not cleaned" = true ∧
      (∀ f ∈ deletedFiles glob0
          (["*.so"] ++ "# BEGIN NOT-CLEAN-FILES deliberately not cleaned" :: ["keep.txt"]),
        ∃ p ∈ (["*.so"] : List String), f ∈ glob0 p) :=
  ⟨by decide,
   (c7_marker_confines_deletions glob0 ["*.so"] ["keep.txt"]
     "# BEGIN NOT-CLEAN-FILES deliberately not cleaned" (by decide)).1⟩

/-- C8: with the versioned-build flag resolving true and a resolvable
40-character revision hash, the resolved version is the base version,
a '+', and the first 7 characters of the hash. -/
theorem c8_versioned_build_suffix (env : EnvMap) (sha : String) (h40 : sha.length = 40)
    (hflag : _check_env_flag env "VERSIONED_IPEX_BUILD" "0" = true) :
    get_build_version env (some sha) =
      ((env "TORCH_IPEX_VERSION").getD "1.0.0") ++ "+" ++ pyTake sha 7 := by
  simp [get_build_version, hflag]

/-- C8 witness: a concrete 40-character hash with `VERSIONED_IPEX_BUILD=1`
and the default base version. -/
theorem c8_witness :
    sha40.length = 40 ∧
      get_build_version envVersioned (some sha40) =
        ((envVersioned "TORCH_IPEX_VERSION").getD "1.0.0") ++ "+" ++ pyTake sha40 7 :=
  ⟨by decide, c8_versioned_build_suffix envVersioned sha40 (by decide) (by decide)⟩

/-- C9: the clean hook stops only at a line beginning with
`'# BEGIN NOT-CLEAN-FILES '` (trailing space included); the exact line
`'# BEGIN NOT-CLEAN-FILES'` without the trailing space is skipped as an
ordinary comment and processing continues; and no line beginning with
`'#'` and no empty line is ever used as a deletion pattern. -/
theorem c9_marker_recognition :
    (∀ rest : List String, cleanLoop ("# BEGIN NOT-CLEAN-FILES" :: rest) = cleanLoop rest) ∧
      (∀ (l : String) (rest : List String), markerLine l = true → cleanLoop (l :: rest) = []) ∧
      (∀ (s p : String), p ∈ cleanPatterns s → hashLine p = false ∧ p ≠ "") := by
  refine ⟨?_, ?_, ?_⟩
  · intro rest
    have h1 : hashLine "# BEGIN NOT-CLEAN-FILES" = true := by decide
    have h2 : markerLine "# BEGIN NOT-CLEAN-FILES" = false := by decide
    simp [cleanLoop, h1, h2]
  · intro l rest h
    exact cleanLoop_stop_marker h rest
  · intro s p hp
    rw [cleanPatterns] at hp
    obtain ⟨hf, hmem⟩ := cleanLoop_mem _ p hp
    refine ⟨hf, ?_⟩
    have hfil := (List.mem_filter.mp hmem).2
    simpa using hfil

/-- C9 witness: concrete instances of all three parts. -/
theorem c9_witness :
    cleanLoop ("# BEGIN NOT-CLEAN-FILES" :: ["build"]) = cleanLoop ["build"] ∧
      cleanLoop ("# BEGIN NOT-CLEAN-FILES below stays" :: ["build"]) = [] ∧
      (hashLine "build" = false ∧ "build" ≠ "") :=
  ⟨c9_marker_recognition.1 ["build"],
   c9_marker_recognition.2.1 "# BEGIN NOT-CLEAN-FILES below stays" ["build"] (by decide),
   c9_marker_recognition.2.2 "#comment\nbuild" "build" (by decide)⟩

/-- C10 counterexample: `IPEXExt('_torch_ipex')` constructed with the raw
project-directory argument `''` (exactly `os.path.dirname('setup.py')`
for a `python setup.py` invocation) stores `build_dir = 'build'` while
its `project_dir` field is the absolutised `/cwd`, whose 'build'
subdirectory is `/cwd/build` — the two disagree. -/
theorem c10_counterexample :
    (IPEXExt.init "_torch_ipex" "" "/cwd").sources = [] ∧
      (IPEXExt.init "_torch_ipex" "" "/cwd").build_dir = "build" ∧
      (IPEXExt.init "_torch_ipex" "" "/cwd").project_dir = "/cwd" ∧
      (IPEXExt.init "_torch_ipex" "" "/cwd").build_dir ≠
        osPathJoin (IPEXExt.init "_torch_ipex" "" "/cwd").project_dir "build" :=
  ⟨rfl, by decide, by decide, by decide⟩

/-- C10 amended: every descriptor is constructed with an empty source
list and with `build_dir` the 'build' subdirectory of the RAW
project-directory argument; when that argument is already absolute this
coincides with the 'build' subdirectory of the stored `project_dir`
field; and `build_extension` returns the descriptor unchanged (no field
is ever reassigned). -/
theorem c10_descriptor_invariants (name project_dir cwd : String) (G : Globals)
    (env : EnvMap) (cmakeExe d : String)
    (habs : startsWithStr project_dir "/" = true) :
    (IPEXExt.init name project_dir cwd).sources = [] ∧
      (IPEXExt.init name project_dir cwd).build_dir = osPathJoin project_dir "build" ∧
      (IPEXExt.init name project_dir cwd).build_dir =
        osPathJoin (IPEXExt.init name project_dir cwd).project_dir "build" ∧
      (build_extension G env cmakeExe (IPEXExt.init name project_dir cwd) d).ext =
        IPEXExt.init name project_dir cwd := by
  refine ⟨rfl, rfl, ?_, rfl⟩
  simp [IPEXExt.init, abspath, habs]

/-- C10 amended witness: the absolute project directory `/proj`. -/
theorem c10_witness :
    (IPEXExt.init "_torch_ipex" "/proj" "/cwd").sources = [] ∧
      (IPEXExt.init "_torch_ipex" "/proj" "/cwd").build_dir = osPathJoin "/proj" "build" ∧
      (IPEXExt.init "_torch_ipex" "/proj" "/cwd").build_dir =
        osPathJoin (IPEXExt.init "_torch_ipex" "/proj" "/cwd").project_dir "build" ∧
      (build_extension G0 envEmpty "/usr/bin/cmake" (IPEXExt.init "_torch_ipex" "/proj" "/cwd") "/out").ext =
        IPEXExt.init "_torch_ipex" "/proj" "/cwd" :=
  c10_descriptor_invariants "_torch_ipex" "/proj" "/cwd" G0 envEmpty "/usr/bin/cmake" "/out" (by decide)
